import Mathlib

/-
  Formal model of the vocal-remover backend (timcsy/vocal-remover).

  The definitions below are shallow embeddings of the Python sources under
  src/backend/app/.  Pure decision logic (status checks, range arithmetic,
  cache keys, progress maps) is translated into executable Lean functions;
  the in-memory job registry and the admission protocol are modelled as an
  explicit state type with a step relation.  File-system effects are
  abstracted as explicit existence predicates or lists of written names,
  and wall-clock timestamps as natural-number ticks.
-/

namespace VocalRemover

/-! ## Data model (models/job.py, plus the Job fields used by the services)

`JobStatus` is models/job.py `JobStatus`.  The `Job` record carries the
fields of models/job.py `Job` that the claims touch, together with the
fields the services and tests use (`source_title`, `result_key`,
`original_video_path`, `track_paths`, `sample_rate`); those extra fields
are exercised by services/job_manager.py, services/exporter.py and the
repository tests, and match spec section 3 (Data Model). -/

inductive JobStatus
  | pending
  | downloading
  | separating
  | merging
  | completed
  | failed
deriving DecidableEq, Repr

/-- Terminal statuses per spec section 3: COMPLETED and FAILED. -/
def JobStatus.isTerminal : JobStatus → Bool
  | .completed => true
  | .failed => true
  | _ => false

/-- Per-stem file paths attached to a completed job (drums, bass, other, vocals). -/
structure TrackPaths where
  drums : Option String := none
  bass : Option String := none
  other : Option String := none
  vocals : Option String := none
deriving DecidableEq, Repr

/-- A registry job.  Timestamps are modelled as Nat ticks. -/
structure Job where
  id : String
  status : JobStatus := .pending
  progress : Nat := 0
  currentStage : Option String := none
  errorMessage : Option String := none
  sourceTitle : Option String := none
  resultKey : Option String := none
  originalVideoPath : Option String := none
  trackPaths : Option TrackPaths := none
  sampleRate : Option Nat := none
  updatedAt : Nat := 0
  completedAt : Option Nat := none
deriving DecidableEq, Repr

/-! ## Job registry (services/job_manager.py)

The registry `_jobs : Dict[str, Job]` is modelled as an association list
with unique keys (ids are uuid4 strings). -/

/-- Dictionary lookup on an association list (Python dict access by key). -/
def alookup {α : Type} (l : List (String × α)) (k : String) : Option α :=
  match l with
  | [] => none
  | (a, b) :: t => if a = k then some b else alookup t k

/-- JobManager.update_progress (services/job_manager.py lines 41-50):
looks the job up and, when present, unconditionally overwrites `progress`
and `current_stage`, overwrites `status` when one is given (every
JobStatus enum member is truthy in Python), and stamps `updated_at`.
There is no terminal-status guard in the code. -/
def applyProgressUpdate (progress : Nat) (stage : String) (status? : Option JobStatus)
    (now : Nat) (j : Job) : Job :=
  { j with
      progress := progress
      currentStage := some stage
      status := status?.getD j.status
      updatedAt := now }

def updateProgress (jobs : List (String × Job)) (jobId : String) (progress : Nat)
    (stage : String) (status? : Option JobStatus) (now : Nat) : List (String × Job) :=
  jobs.map (fun (a, b) =>
    if a = jobId then (a, applyProgressUpdate progress stage status? now b) else (a, b))

/-- A job that has been completed: status COMPLETED, progress 100
(the state JobManager.complete_job leaves a job in). -/
def completedSampleJob : Job :=
  { id := "job-1"
    status := .completed
    progress := 100
    currentStage := some "done"
    sourceTitle := some "Song T"
    resultKey := some "results/job-1/output.mp4"
    originalVideoPath := some "results/job-1/original.mp4"
    updatedAt := 5
    completedAt := some 5 }

/-! ## Separator (services/separator.py, VocalSeparator.separate lines 27-106)

The code loads the input at sample rate `sr`, resamples to the model rate
for inference when they differ, resamples the two derived signals back to
`sr`, and saves exactly two files into the output directory:
`vocals.wav` and `background.wav` (background = drums + bass + other),
both written at the original rate `sr`; it returns a dict holding the two
paths and `sample_rate = sr`.  The result records the written file names
with the rate each was saved at. -/

structure SeparateResult where
  files : List (String × Nat)
  sampleRate : Nat
  resampledForModel : Bool
deriving DecidableEq, Repr

def separate (sr modelRate : Nat) : SeparateResult :=
  { files := [("vocals.wav", sr), ("background.wav", sr)]
    sampleRate := sr
    resampledForModel := decide (sr ≠ modelRate) }

/-! ## Download endpoint (api/v1/jobs.py, download_result lines 384-438) -/

inductive DownloadResponse
  | jobNotFound
  | jobNotCompleted
  | noResult
  | fileAttachment (path : String)
deriving DecidableEq, Repr

/-- The file-picking step of download_result: `file_path = None;
if job.original_video_path and os.path.exists(...): file_path = original;
elif job.result_key and os.path.exists(...): file_path = result_key`.
(An unset path is `None`, modelled as `none`.) -/
def existingPath (p? : Option String) (fileExists : String → Bool) : Option String :=
  match p? with
  | some p => if fileExists p then some p else none
  | none => none

def chooseDownloadFile (job : Job) (fileExists : String → Bool) : Option String :=
  match existingPath job.originalVideoPath fileExists with
  | some p => some p
  | none => existingPath job.resultKey fileExists

/-- download_result: 404 JOB_NOT_FOUND when the id is unknown,
400 JOB_NOT_COMPLETED unless status is COMPLETED, then the chosen file is
streamed as a FileResponse with a Content-Disposition attachment header,
or 400 NO_RESULT when neither candidate file exists. -/
def downloadResult (job? : Option Job) (fileExists : String → Bool) : DownloadResponse :=
  match job? with
  | none => .jobNotFound
  | some job =>
    if job.status = .completed then
      match chooseDownloadFile job fileExists with
      | some p => .fileAttachment p
      | none => .noResult
    else .jobNotCompleted

/-! ## URL acquirer duration gate (services/youtube.py, download lines 90-121)

After URL validation, the code runs
```
try:
    info = self.get_video_info(url)
    duration = info.get("duration", 0)
    if duration > self.max_duration:
        raise ValueError(...)
except Exception as e:
    logger.warning(...)          # "cannot get video info ... keep trying"
```
and then proceeds to the yt-dlp / cobalt fetch in every case: the
ValueError raised by the over-length check is caught by the enclosing
except handler, so the gate never stops a download. -/

inductive GateOutcome
  | proceedToFetch
  | rejected (code : String)
deriving DecidableEq, Repr

/-- The intended duration check (the body of the try block): probed
duration strictly greater than max_duration raises. -/
def checkDuration (duration maxDuration : Nat) : Except String Nat :=
  if duration > maxDuration then .error "DURATION_EXCEEDED" else .ok duration

/-- What YouTubeDownloader.download actually does before fetching:
run the probe and the duration check inside try/except Exception, and
proceed to fetch no matter how that block exits. -/
def preFetchGate (probe : Except String Nat) (maxDuration : Nat) : GateOutcome :=
  match (do
      let d ← probe
      let _ ← checkDuration d maxDuration
      pure d : Except String Nat) with
  | .ok _ => .proceedToFetch
  | .error _ => .proceedToFetch

/-! ## Range streaming (api/v1/jobs.py, stream_result lines 441-525 and
stream_track lines 590-691; both share the same parse/clamp logic)

The header is parsed with a regular-expression match on bytes=(\d+)-(\d*):
a match requires the prefix `bytes=`, at least one digit, then a dash;
the second group may be empty; trailing text is ignored.  `start` and
`end` default to `0` and `size-1`; a parsed range overwrites them;
`start >= size` raises 416; then `end = min(end, size-1)` and
`Content-Length = end - start + 1` (a Python int, so possibly negative).
The headers dict always carries `Content-Range: bytes start-end/size`,
and the status is 206 exactly when the header value is truthy
(present and non-empty). -/

inductive StreamResponse
  | notSatisfiable
  | ranged (status first last size : Nat) (contentLength : Int)
deriving DecidableEq, Repr

/-- Decimal value of a digit run, as int() computes it on the group. -/
def natOfDigits (ds : List Char) : Nat :=
  ds.foldl (fun acc c => 10 * acc + (c.toNat - 48)) 0

/-- Match of the regular expression against the text after the bytes=
prefix: a non-empty maximal digit run, a dash, then a possibly empty
maximal digit run; anything after the second run is ignored. -/
def parseRangeAux (cs : List Char) : Option (Nat × Option Nat) :=
  let ds := cs.takeWhile Char.isDigit
  if ds.isEmpty then none
  else
    match cs.drop ds.length with
    | '-' :: rest =>
      let es := rest.takeWhile Char.isDigit
      some (natOfDigits ds, if es.isEmpty then none else some (natOfDigits es))
    | _ => none

def parseRangeHeader (s : String) : Option (Nat × Option Nat) :=
  match s.data with
  | 'b' :: 'y' :: 't' :: 'e' :: 's' :: '=' :: rest => parseRangeAux rest
  | _ => none

/-- Shared start/end/clamp/Content-Length logic, given the status-code
truthiness of the header and the parse result. -/
def rangeCore (size : Nat) (truthy : Bool) (parsed : Option (Nat × Option Nat)) :
    StreamResponse :=
  let start :=
    match parsed with
    | some (a, _) => a
    | none => 0
  let stop :=
    match parsed with
    | some (_, some b) => b
    | _ => size - 1
  if start ≥ size then .notSatisfiable
  else
    let fin := min stop (size - 1)
    .ranged (if truthy then 206 else 200) start fin size
      ((fin : Int) - (start : Int) + 1)

def streamResponse (size : Nat) (rangeHeader : Option String) : StreamResponse :=
  let rangeTruthy :=
    match rangeHeader with
    | none => false
    | some s => !s.data.isEmpty
  rangeCore size rangeTruthy
    (if rangeTruthy then parseRangeHeader (rangeHeader.getD "") else none)

/-- The end byte the code serves: the second group when given, else
size-1, clamped to size-1. -/
def clampEnd (size : Nat) (b? : Option Nat) : Nat :=
  min (b?.getD (size - 1)) (size - 1)

/-! ## Remix cache (api/v1/jobs.py, create_mix lines 720-837) -/

inductive OutputFormat
  | mp4
  | mp3
  | m4a
  | wav
deriving DecidableEq, Repr

/-- Mix settings from CreateMixRequest: four per-stem gains, an integer
pitch shift, and the output container. -/
structure MixSettings where
  drumsVolume : ℚ
  bassVolume : ℚ
  otherVolume : ℚ
  vocalsVolume : ℚ
  pitchShift : Int
  outputFormat : OutputFormat
deriving DecidableEq, Repr

/-- Rounding a gain to two decimals, represented as integer hundredths. -/
def roundGain (g : ℚ) : Int := round (100 * g)

/-- Modelled from the spec: services/mixer.py (get_cache_key) is absent
from src/; spec sections 3 and 4.7 define the remix key as a
deterministic stable hash over (job ID, gains rounded to two decimals,
pitch, container), with distinct inputs yielding distinct keys.  The key
is modelled as the tuple itself. -/
structure MixKey where
  jobId : String
  drums : Int
  bass : Int
  other : Int
  vocals : Int
  pitch : Int
  fmt : OutputFormat
deriving DecidableEq, Repr

def getCacheKey (jobId : String) (s : MixSettings) : MixKey :=
  { jobId := jobId
    drums := roundGain s.drumsVolume
    bass := roundGain s.bassVolume
    other := roundGain s.otherVolume
    vocals := roundGain s.vocalsVolume
    pitch := s.pitchShift
    fmt := s.outputFormat }

structure MixStatusResponse where
  mixId : MixKey
  status : String
  progress : Nat
  cached : Bool
  workerSpawned : Bool
deriving DecidableEq, Repr

inductive CreateMixResult
  | jobNotFound
  | jobNotCompleted
  | noTracks
  | resp (r : MixStatusResponse)
deriving DecidableEq, Repr

/-- create_mix: 404 for an unknown job, 400 JOB_NOT_COMPLETED unless
COMPLETED, 400 NO_TRACKS without track paths; then the cache key is
computed, and if the keyed output file `mix_<key>.<ext>` already exists
the request returns `completed`, progress 100, `cached=true` without
starting a thread; otherwise an in-flight entry for the same
`job_id:mix_id` with status `processing` is answered with its current
progress, and only failing all that is a new task recorded and a worker
thread spawned.  `outputFileExists` abstracts the on-disk check and
`inflight` the `_mix_tasks` entry in status processing. -/
def createMix (job? : Option Job) (s : MixSettings)
    (outputFileExists : MixKey → Bool) (inflight : MixKey → Option Nat) :
    CreateMixResult :=
  match job? with
  | none => .jobNotFound
  | some job =>
    if job.status = .completed then
      if job.trackPaths = none then .noTracks
      else
        let key := getCacheKey job.id s
        if outputFileExists key then
          .resp { mixId := key, status := "completed", progress := 100,
                  cached := true, workerSpawned := false }
        else
          match inflight key with
          | some prog =>
            .resp { mixId := key, status := "processing", progress := prog,
                    cached := false, workerSpawned := false }
          | none =>
            .resp { mixId := key, status := "processing", progress := 0,
                    cached := false, workerSpawned := true }
    else .jobNotCompleted

/-! ## Admission protocol (api/v1/jobs.py create_job, services/processor.py
_process_job, services/job_manager.py can_accept_job lines 81-100)

JobManager keeps `_processing_count`, incremented by increment_processing
at the start of the worker function _process_job and decremented in its
finally block; can_accept_job compares that counter - not any count of
registry jobs - against max_concurrent_jobs.  The HTTP handler checks
can_accept_job, creates the job in PENDING, and spawns the worker thread;
the increment happens later, inside the thread.

The model keeps the multiset of registry jobs as a list (registry keys
are unique uuid4 strings, so a step rewrites exactly one entry, expressed
positionally), paired with that job's worker phase: `queued` between
registry insertion and the worker thread's increment, `running` between
increment and the final decrement, `finished` afterwards. -/

inductive WorkerPhase
  | queued
  | running
  | finished
deriving DecidableEq, Repr

structure SysJob where
  status : JobStatus
  phase : WorkerPhase
deriving DecidableEq, Repr

structure SysState where
  jobs : List SysJob
  processingCount : Nat
  maxConcurrent : Nat
deriving DecidableEq, Repr

/-- JobManager.can_accept_job: `self._processing_count < self._max_concurrent`. -/
def canAccept (s : SysState) : Bool := s.processingCount < s.maxConcurrent

/-- The number of registry jobs in non-terminal status. -/
def nonTerminalCount (s : SysState) : Nat :=
  (s.jobs.filter (fun j => !j.status.isTerminal)).length

/-- The number of jobs whose worker is between increment_processing and
decrement_processing. -/
def runningCount (l : List SysJob) : Nat :=
  (l.filter (fun j => decide (j.phase = .running))).length

def initState (m : Nat) : SysState := { jobs := [], processingCount := 0, maxConcurrent := m }

/-- One observable transition of the system.
  * `submit`: the POST /jobs handler passes the can_accept_job check and
    JobManager.create_job inserts a PENDING job; no counter change yet.
  * `start`: the worker thread for an admitted job begins _process_job:
    increment_processing, then the first update_progress sets DOWNLOADING.
  * `report`: a running worker records a non-terminal stage status.
  * `finishOk` / `finishFail`: complete_job or fail_job followed by
    decrement_processing (which is `count - 1` guarded at zero, i.e.
    truncated subtraction). -/
inductive Step : SysState → SysState → Prop
  | submit (l : List SysJob) (c m : Nat) (h : decide (c < m) = true) :
      Step { jobs := l, processingCount := c, maxConcurrent := m }
        { jobs := { status := .pending, phase := .queued } :: l,
          processingCount := c, maxConcurrent := m }
  | start (l₁ l₂ : List SysJob) (j : SysJob) (c m : Nat) (hq : j.phase = .queued) :
      Step { jobs := l₁ ++ j :: l₂, processingCount := c, maxConcurrent := m }
        { jobs := l₁ ++ { status := .downloading, phase := .running } :: l₂,
          processingCount := c + 1, maxConcurrent := m }
  | report (l₁ l₂ : List SysJob) (j : SysJob) (c m : Nat) (st : JobStatus)
      (hr : j.phase = .running) (hnt : st.isTerminal = false) :
      Step { jobs := l₁ ++ j :: l₂, processingCount := c, maxConcurrent := m }
        { jobs := l₁ ++ { j with status := st } :: l₂,
          processingCount := c, maxConcurrent := m }
  | finishOk (l₁ l₂ : List SysJob) (j : SysJob) (c m : Nat) (hr : j.phase = .running) :
      Step { jobs := l₁ ++ j :: l₂, processingCount := c, maxConcurrent := m }
        { jobs := l₁ ++ { status := .completed, phase := .finished } :: l₂,
          processingCount := c - 1, maxConcurrent := m }
  | finishFail (l₁ l₂ : List SysJob) (j : SysJob) (c m : Nat) (hr : j.phase = .running) :
      Step { jobs := l₁ ++ j :: l₂, processingCount := c, maxConcurrent := m }
        { jobs := l₁ ++ { status := .failed, phase := .finished } :: l₂,
          processingCount := c - 1, maxConcurrent := m }

/-- States reachable from an empty registry. -/
inductive Reach : SysState → Prop
  | init (m : Nat) : Reach (initState m)
  | step {s t : SysState} : Reach s → Step s t → Reach t

/-! ## Pipeline progress allocation (services/processor.py,
_process_youtube_job lines 52-149)

The outer progress values written to the registry, in order:
update_progress 0 at DOWNLOADING; the download callback writes
int(progress * 0.2); fixed 20 and 30 at the extract and separate stage
entries; the separation callback writes 30 + int(progress * 0.4); fixed
70 at MERGING; the merge callback writes 70 + int(progress * 0.25); and
complete_job writes 100.

For integer inner percents 0 <= p <= 100 the Python float expressions
int(p * 0.2), int(p * 0.4) and int(p * 0.25) equal the rational floors
p / 5, 2 * p / 5 and p / 4: 0.25 is exact, and the doubles nearest 0.2
and 0.4 exceed 1/5 and 2/5 by less than 2^-53, an excess too small to
carry the product across the next integer for p <= 100. -/

def dlOuter (p : Nat) : Nat := p / 5

def sepOuter (p : Nat) : Nat := 30 + 2 * p / 5

def mergeOuter (p : Nat) : Nat := 70 + p / 4

/-- The full sequence of progress values one YouTube job writes, given
the inner percent sequences reported by the downloader, the separator
and the merger. -/
def youtubeProgressTrace (dl sep mrg : List Nat) : List Nat :=
  0 :: (dl.map dlOuter ++ 20 :: 30 :: (sep.map sepOuter ++ 70 :: (mrg.map mergeOuter ++ [100])))

/-! ## Import conflict resolution (services/importer.py,
resolve_conflict lines 287-342 and _create_job_from_files_data lines
223-285; api/v1/jobs.py resolve_import_conflict lines 1086-1113)

State: the registry, the pending-conflicts map `_pending_imports`, and
the set of per-job directories on disk under results_dir (by job id).
For action overwrite the code calls JobManager.delete_job on the
colliding id - which only removes the registry entry; no Store deletion
happens - then _create_job_from_files_data makes a fresh directory,
writes whichever stems and video the pending bytes contain, inserts a
COMPLETED job with progress 100 under the original title, and deletes
the pending entry. -/

structure PendingImport where
  title : String
  existingJobId : String
  trackNames : List String
  hasVideo : Bool
deriving DecidableEq, Repr

structure ImportState where
  registry : List (String × Job)
  pendings : List (String × PendingImport)
  diskDirs : List String
deriving DecidableEq, Repr

inductive ResolveError
  | conflictNotFound
  | missingTitle
  | titleTaken
  | invalidAction
deriving DecidableEq, Repr

/-- The job _create_job_from_files_data constructs from the pending
bytes: fresh uuid id, COMPLETED, progress 100, the metadata title (or
the supplied new title for a rename), stem paths for whichever of the
four stem files are present, and original.mp4 when video.mp4 was in the
bundle. -/
def jobFromFilesData (newId : String) (p : PendingImport) (newTitle : Option String) : Job :=
  let path := fun (name : String) =>
    if p.trackNames.contains name then some (newId ++ "/" ++ name) else none
  { id := newId
    status := .completed
    progress := 100
    sourceTitle := some (newTitle.getD p.title)
    trackPaths := some
      { drums := path "drums.wav"
        bass := path "bass.wav"
        other := path "other.wav"
        vocals := path "vocals.wav" }
    originalVideoPath := if p.hasVideo then some (newId ++ "/original.mp4") else none }

/-- Importer.resolve_conflict for action overwrite.  `newId` stands for
the uuid4 the code draws for the new job directory. -/
def resolveOverwrite (st : ImportState) (conflictId newId : String) :
    ImportState × Option Job × Option ResolveError :=
  match alookup st.pendings conflictId with
  | none => (st, none, some .conflictNotFound)
  | some p =>
    let newJob := jobFromFilesData newId p none
    ({ registry := (newId, newJob) :: st.registry.filter (fun e => decide (e.1 ≠ p.existingJobId))
       pendings := st.pendings.filter (fun e => decide (e.1 ≠ conflictId))
       diskDirs := newId :: st.diskDirs },
     some newJob, none)

/-! ## Concrete sample states used by witnesses and counterexamples -/

/-- A job still in its initial PENDING state. -/
def pendingSampleJob : Job :=
  { id := "job-2", status := .pending, progress := 0 }

/-- A completed job that carries the four stem paths. -/
def mixSampleJob : Job :=
  { id := "job-3"
    status := .completed
    progress := 100
    sourceTitle := some "Song M"
    resultKey := some "results/job-3/output.mp4"
    trackPaths := some
      { drums := some "results/job-3/drums.wav"
        bass := some "results/job-3/bass.wav"
        other := some "results/job-3/other.wav"
        vocals := some "results/job-3/vocals.wav" }
    sampleRate := some 44100 }

/-- The default CreateMixRequest settings: unit gains, muted vocals,
no pitch shift, mp4 container. -/
def defaultMixSettings : MixSettings :=
  { drumsVolume := 1
    bassVolume := 1
    otherVolume := 1
    vocalsVolume := 0
    pitchShift := 0
    outputFormat := .mp4 }

/-- A pending import whose title collides with registry job "old". -/
def samplePending : PendingImport :=
  { title := "Song T"
    existingJobId := "old"
    trackNames := ["drums.wav", "bass.wav", "other.wav", "vocals.wav"]
    hasVideo := true }

/-- An import state holding one colliding job (with its directory on
disk) and one staged conflict for it. -/
def importSampleState : ImportState :=
  { registry := [("old", { completedSampleJob with id := "old" })]
    pendings := [("c1", samplePending)]
    diskDirs := ["old"] }

/-- Two PENDING jobs admitted back-to-back while max_concurrent_jobs = 1:
both submissions pass can_accept_job before either worker thread has run
increment_processing. -/
def overAdmittedState : SysState :=
  { jobs := [{ status := .pending, phase := .queued },
             { status := .pending, phase := .queued }]
    processingCount := 0
    maxConcurrent := 1 }

/-- The registry/worker-count agreement the admission protocol actually
maintains: the processing counter equals the number of jobs whose worker
is between increment and decrement. -/
def CounterInv (s : SysState) : Prop :=
  s.processingCount = runningCount s.jobs

/-! ## Theorems -/

/-- Claim C1, counterexample: VocalSeparator.separate writes exactly the
two files vocals.wav and background.wav - not the four stem files
drums.wav, bass.wav, other.wav, vocals.wav the claim names; in
particular no drums.wav is produced. -/
theorem C1_counterexample :
    (separate 44100 44100).files.map Prod.fst = ["vocals.wav", "background.wav"]
    ∧ (separate 44100 44100).files.map Prod.fst
        ≠ ["drums.wav", "bass.wav", "other.wav", "vocals.wav"]
    ∧ "drums.wav" ∉ (separate 44100 44100).files.map Prod.fst := by
  refine ⟨rfl, ?_, ?_⟩ <;> decide

/-- Claim C1, amended: for every input WAV and output directory,
VocalSeparator.separate produces exactly two files, vocals.wav and
background.wav, each written at the sample rate of the input, and
returns that sample rate - whether or not the audio was resampled to
the model rate for inference. -/
theorem C1_separate_two_files (sr modelRate : Nat) :
    (separate sr modelRate).files = [("vocals.wav", sr), ("background.wav", sr)]
    ∧ (separate sr modelRate).sampleRate = sr :=
  ⟨rfl, rfl⟩

/-- Claim C5: the over-length check inside YouTubeDownloader.download
does raise DURATION_EXCEEDED for a probed duration of 601 s against the
600 s limit - but the enclosing try/except swallows it, so the gate
proceeds to fetch both at 601 s (where its own docstring and the
repository API test demand rejection) and at the accepted 600 s. -/
theorem C5_duration_gate_never_rejects :
    checkDuration 601 600 = .error "DURATION_EXCEEDED"
    ∧ preFetchGate (.ok 601) 600 = .proceedToFetch
    ∧ preFetchGate (.ok 600) 600 = .proceedToFetch :=
  ⟨rfl, rfl, rfl⟩

/-- Claim C2, counterexample: for a COMPLETED job whose original video
and final-mix file both exist, download_result streams the original
video (with vocals), not the default-instrumental output recorded in
result_key at completion. -/
theorem C2_counterexample :
    downloadResult (some completedSampleJob) (fun _ => true)
      = .fileAttachment "results/job-1/original.mp4"
    ∧ completedSampleJob.resultKey = some "results/job-1/output.mp4"
    ∧ ("results/job-1/original.mp4" : String) ≠ "results/job-1/output.mp4" := by
  refine ⟨rfl, rfl, ?_⟩
  decide

/-- Claim C2, amended: for a COMPLETED job, GET /jobs/id/download streams
as an attachment the original video when it is recorded and exists,
falling back to the final mix recorded at completion otherwise; a job
not in COMPLETED fails with JOB_NOT_COMPLETED, and NO_RESULT is returned
when neither file exists (an unknown id is 404). -/
theorem C2_download_behaviour (job : Job) (fs : String → Bool) :
    downloadResult none fs = .jobNotFound
    ∧ (job.status ≠ .completed → downloadResult (some job) fs = .jobNotCompleted)
    ∧ (job.status = .completed →
        ∀ p, existingPath job.originalVideoPath fs = some p →
          downloadResult (some job) fs = .fileAttachment p)
    ∧ (job.status = .completed → existingPath job.originalVideoPath fs = none →
        ∀ r, existingPath job.resultKey fs = some r →
          downloadResult (some job) fs = .fileAttachment r)
    ∧ (job.status = .completed → existingPath job.originalVideoPath fs = none →
        existingPath job.resultKey fs = none →
          downloadResult (some job) fs = .noResult) := by
  refine ⟨rfl, ?_, ?_, ?_, ?_⟩
  · intro h
    simp [downloadResult, h]
  · intro hst p hp
    simp [downloadResult, chooseDownloadFile, hst, hp]
  · intro hst ho r hr
    simp [downloadResult, chooseDownloadFile, hst, ho, hr]
  · intro hst ho hr
    simp [downloadResult, chooseDownloadFile, hst, ho, hr]

/-- Witness for C2_download_behaviour at concrete states: the completed
sample job with both files on disk streams the original video, and a
PENDING job is answered with JOB_NOT_COMPLETED. -/
theorem C2_download_behaviour_witness :
    downloadResult (some completedSampleJob) (fun _ => true)
      = .fileAttachment "results/job-1/original.mp4"
    ∧ downloadResult (some pendingSampleJob) (fun _ => true) = .jobNotCompleted :=
  ⟨(C2_download_behaviour completedSampleJob (fun _ => true)).2.2.1 rfl
      "results/job-1/original.mp4" rfl,
   (C2_download_behaviour pendingSampleJob (fun _ => true)).2.1 (by decide)⟩

/-- Claim C6, counterexample: update_progress on a COMPLETED job is not
dropped - it overwrites the stored progress (here from 100 down to 50),
the stage and updated_at. -/
theorem C6_counterexample :
    completedSampleJob.status.isTerminal = true
    ∧ completedSampleJob.progress = 100
    ∧ (alookup (updateProgress [("job-1", completedSampleJob)] "job-1" 50 "restart" none 6)
          "job-1").map Job.progress = some 50 :=
  ⟨rfl, rfl, rfl⟩

/-- Helper: one lookup step on a cons cell. -/
theorem alookup_cons {α : Type} (a : String) (b : α) (t : List (String × α)) (k : String) :
    alookup ((a, b) :: t) k = if a = k then some b else alookup t k := rfl

/-- Helper: one map step of updateProgress. -/
theorem updateProgress_cons (a : String) (b : Job) (tl : List (String × Job))
    (jobId : String) (p : Nat) (st : String) (s? : Option JobStatus) (now : Nat) :
    updateProgress ((a, b) :: tl) jobId p st s? now
      = (if a = jobId then (a, applyProgressUpdate p st s? now b) else (a, b))
          :: updateProgress tl jobId p st s? now := rfl

/-- Helper: updateProgress rewrites the entry stored under the target id. -/
theorem alookup_updateProgress_self (jobs : List (String × Job)) (jobId : String)
    (p : Nat) (st : String) (s? : Option JobStatus) (now : Nat) (j : Job)
    (hj : alookup jobs jobId = some j) :
    alookup (updateProgress jobs jobId p st s? now) jobId
      = some (applyProgressUpdate p st s? now j) := by
  induction jobs with
  | nil => exact absurd hj (by simp [alookup])
  | cons e tl ih =>
    obtain ⟨a, b⟩ := e
    rw [alookup_cons] at hj
    rw [updateProgress_cons]
    by_cases ha : a = jobId
    · rw [if_pos ha] at hj
      obtain rfl : b = j := Option.some.inj hj
      rw [if_pos ha, alookup_cons, if_pos ha]
    · rw [if_neg ha] at hj
      rw [if_neg ha, alookup_cons, if_neg ha]
      exact ih hj

/-- Helper: updateProgress leaves every other key untouched. -/
theorem alookup_updateProgress_other (jobs : List (String × Job)) (jobId otherId : String)
    (p : Nat) (st : String) (s? : Option JobStatus) (now : Nat)
    (hne : otherId ≠ jobId) :
    alookup (updateProgress jobs jobId p st s? now) otherId = alookup jobs otherId := by
  induction jobs with
  | nil => rfl
  | cons e tl ih =>
    obtain ⟨a, b⟩ := e
    rw [updateProgress_cons, alookup_cons]
    by_cases ha : a = jobId
    · have hao : a ≠ otherId := fun h => hne (h ▸ ha)
      rw [if_pos ha, alookup_cons, if_neg hao, if_neg hao]
      exact ih
    · rw [if_neg ha, alookup_cons]
      by_cases hao : a = otherId
      · rw [if_pos hao, if_pos hao]
      · rw [if_neg hao, if_neg hao]
        exact ih

/-- Claim C6, amended: update_progress applies to the addressed job
whatever its status, terminal included: it overwrites progress and
current_stage, overwrites status when one is supplied, and stamps
updated_at; entries under every other id are unchanged. -/
theorem C6_update_progress_unguarded (jobs : List (String × Job)) (jobId otherId : String)
    (p : Nat) (st : String) (s? : Option JobStatus) (now : Nat) (j : Job)
    (hj : alookup jobs jobId = some j) (hne : otherId ≠ jobId) :
    alookup (updateProgress jobs jobId p st s? now) jobId
      = some { j with progress := p, currentStage := some st,
                      status := s?.getD j.status, updatedAt := now }
    ∧ alookup (updateProgress jobs jobId p st s? now) otherId = alookup jobs otherId :=
  ⟨alookup_updateProgress_self jobs jobId p st s? now j hj,
   alookup_updateProgress_other jobs jobId otherId p st s? now hne⟩

/-- Witness for C6_update_progress_unguarded on the one-entry registry
holding the completed sample job. -/
theorem C6_update_progress_unguarded_witness :
    alookup (updateProgress [("job-1", completedSampleJob)] "job-1" 50 "restart" none 6)
        "job-1"
      = some { completedSampleJob with progress := 50, currentStage := some "restart",
                                       status := completedSampleJob.status, updatedAt := 6 }
    ∧ alookup (updateProgress [("job-1", completedSampleJob)] "job-1" 50 "restart" none 6)
        "job-2"
      = alookup [("job-1", completedSampleJob)] "job-2" :=
  C6_update_progress_unguarded [("job-1", completedSampleJob)] "job-1" "job-2"
    50 "restart" none 6 completedSampleJob rfl (by decide)

/-- Helper: count of running workers distributes over append. -/
theorem runningCount_append (l₁ l₂ : List SysJob) :
    runningCount (l₁ ++ l₂) = runningCount l₁ + runningCount l₂ := by
  simp [runningCount, List.filter_append]

/-- Helper: count of running workers on a cons cell. -/
theorem runningCount_cons (j : SysJob) (l : List SysJob) :
    runningCount (j :: l) = (if j.phase = .running then 1 else 0) + runningCount l := by
  by_cases h : j.phase = .running
  · simp [runningCount, List.filter_cons, h]
    omega
  · simp [runningCount, List.filter_cons, h]

/-- Helper: every reachable state keeps the processing counter equal to
the number of started-but-unfinished workers. -/
theorem counterInv_of_reach (s : SysState) (h : Reach s) : CounterInv s := by
  induction h with
  | init m => rfl
  | step hr hs ih =>
    cases hs with
    | submit l c m h =>
      simp only [CounterInv, runningCount_cons] at ih ⊢
      simpa using ih
    | start l₁ l₂ j c m hq =>
      simp only [CounterInv, runningCount_append, runningCount_cons] at ih ⊢
      rw [hq] at ih
      simp only [reduceCtorEq, if_neg, if_pos] at ih ⊢
      simp at ih ⊢
      omega
    | report l₁ l₂ j c m st hr2 hnt =>
      simp only [CounterInv, runningCount_append, runningCount_cons] at ih ⊢
      rw [hr2] at ih
      simp at ih ⊢
      rw [hr2]
      simp
      omega
    | finishOk l₁ l₂ j c m hr2 =>
      simp only [CounterInv, runningCount_append, runningCount_cons] at ih ⊢
      rw [hr2] at ih
      simp at ih ⊢
      omega
    | finishFail l₁ l₂ j c m hr2 =>
      simp only [CounterInv, runningCount_append, runningCount_cons] at ih ⊢
      rw [hr2] at ih
      simp at ih ⊢
      omega

/-- Claim C3, counterexample: with max_concurrent_jobs = 1, two POST
/jobs submissions can both pass can_accept_job before either worker
thread has executed increment_processing (the check and the increment
are not atomic), leaving a reachable registry state with two
non-terminal jobs - more than the bound - in which can_accept_job still
returns true even though the non-terminal count is not below the bound. -/
theorem C3_counterexample :
    Reach overAdmittedState
    ∧ canAccept overAdmittedState = true
    ∧ nonTerminalCount overAdmittedState = 2
    ∧ overAdmittedState.maxConcurrent = 1
    ∧ ¬ nonTerminalCount overAdmittedState < overAdmittedState.maxConcurrent
    ∧ ¬ nonTerminalCount overAdmittedState ≤ overAdmittedState.maxConcurrent := by
  refine ⟨?_, rfl, rfl, rfl, by decide, by decide⟩
  have h1 : Step (initState 1)
      { jobs := [{ status := .pending, phase := .queued }],
        processingCount := 0, maxConcurrent := 1 } :=
    Step.submit [] 0 1 (by decide)
  have h2 : Step
      { jobs := [{ status := .pending, phase := .queued }],
        processingCount := 0, maxConcurrent := 1 }
      overAdmittedState :=
    Step.submit [{ status := .pending, phase := .queued }] 0 1 (by decide)
  exact Reach.step (Reach.step (Reach.init 1) h1) h2

/-- Claim C3, amended: in every reachable state, can_accept_job returns
true exactly when the number of jobs whose worker is between
increment_processing and decrement_processing is strictly below
max_concurrent_jobs; the counter it compares is that worker count, not
the number of non-terminal registry jobs, which can exceed the bound. -/
theorem C3_can_accept_counts_workers (s : SysState) (h : Reach s) :
    canAccept s = true ↔ runningCount s.jobs < s.maxConcurrent := by
  have hinv : s.processingCount = runningCount s.jobs := counterInv_of_reach s h
  simp [canAccept, hinv]

/-- Witness for C3_can_accept_counts_workers at the initial state with
max_concurrent_jobs = 1. -/
theorem C3_can_accept_counts_workers_witness :
    canAccept (initState 1) = true
      ↔ runningCount (initState 1).jobs < (initState 1).maxConcurrent :=
  C3_can_accept_counts_workers (initState 1) (Reach.init 1)

/-- Helper: head-option membership gives list membership. -/
theorem mem_of_headOpt {α : Type} {l : List α} {x : α} (h : x ∈ l.head?) : x ∈ l := by
  cases l with
  | nil => simp at h
  | cons a t =>
    simp only [List.head?_cons, Option.mem_def, Option.some.injEq] at h
    exact h ▸ List.mem_cons_self a t

/-- Helper: last-option membership gives list membership. -/
theorem mem_of_getLastOpt {α : Type} {l : List α} {x : α} (h : x ∈ l.getLast?) : x ∈ l := by
  obtain ⟨hne, rfl⟩ := List.mem_getLast?_eq_getLast h
  exact List.getLast_mem hne

/-- Helper: two non-decreasing runs concatenate into one when everything
in the first is below everything in the second. -/
theorem chain_le_append (l₁ l₂ : List Nat) (h₁ : List.Chain' (· ≤ ·) l₁)
    (h₂ : List.Chain' (· ≤ ·) l₂) (hb : ∀ x ∈ l₁, ∀ y ∈ l₂, x ≤ y) :
    List.Chain' (· ≤ ·) (l₁ ++ l₂) := by
  rw [List.chain'_append]
  exact ⟨h₁, h₂, fun x hx y hy => hb x (mem_of_getLastOpt hx) y (mem_of_headOpt hy)⟩

/-- Helper: a value below every element of a non-decreasing run can be
prepended. -/
theorem chain_le_cons (a : Nat) (l : List Nat) (h : List.Chain' (· ≤ ·) l)
    (ha : ∀ y ∈ l, a ≤ y) : List.Chain' (· ≤ ·) (a :: l) :=
  List.chain'_cons'.mpr ⟨fun y hy => ha y (mem_of_headOpt hy), h⟩

/-- Claim C8: along the YouTube pipeline, every stage writes
outer_base + int(inner_percent x span) for its allocation - download
(0, 0.2), separation (30, 0.4), merge (70, 0.25), with the fixed writes
0, 20, 30, 70 and 100 between stages - so whenever each collaborator
reports a non-decreasing sequence of inner percents within 0..100, the
whole sequence of job progress values never decreases. -/
theorem C8_progress_monotone (dl sep mrg : List Nat)
    (hdl : List.Chain' (· ≤ ·) dl) (hsep : List.Chain' (· ≤ ·) sep)
    (hmrg : List.Chain' (· ≤ ·) mrg)
    (hdlB : ∀ p ∈ dl, p ≤ 100) (hsepB : ∀ p ∈ sep, p ≤ 100)
    (hmrgB : ∀ p ∈ mrg, p ≤ 100) :
    List.Chain' (· ≤ ·) (youtubeProgressTrace dl sep mrg) := by
  have hA : List.Chain' (· ≤ ·) (dl.map dlOuter) :=
    List.chain'_map_of_chain' dlOuter (fun a b h => by dsimp [dlOuter]; omega) hdl
  have hB : List.Chain' (· ≤ ·) (sep.map sepOuter) :=
    List.chain'_map_of_chain' sepOuter (fun a b h => by dsimp [sepOuter]; omega) hsep
  have hC : List.Chain' (· ≤ ·) (mrg.map mergeOuter) :=
    List.chain'_map_of_chain' mergeOuter (fun a b h => by dsimp [mergeOuter]; omega) hmrg
  have hAub : ∀ x ∈ dl.map dlOuter, x ≤ 20 := by
    intro x hx
    obtain ⟨p, hp, rfl⟩ := List.mem_map.mp hx
    have := hdlB p hp
    dsimp [dlOuter]
    omega
  have hBlb : ∀ x ∈ sep.map sepOuter, 30 ≤ x := by
    intro x hx
    obtain ⟨p, hp, rfl⟩ := List.mem_map.mp hx
    dsimp [sepOuter]
    omega
  have hBub : ∀ x ∈ sep.map sepOuter, x ≤ 70 := by
    intro x hx
    obtain ⟨p, hp, rfl⟩ := List.mem_map.mp hx
    have := hsepB p hp
    dsimp [sepOuter]
    omega
  have hClb : ∀ x ∈ mrg.map mergeOuter, 70 ≤ x := by
    intro x hx
    obtain ⟨p, hp, rfl⟩ := List.mem_map.mp hx
    dsimp [mergeOuter]
    omega
  have hCub : ∀ x ∈ mrg.map mergeOuter, x ≤ 100 := by
    intro x hx
    obtain ⟨p, hp, rfl⟩ := List.mem_map.mp hx
    have := hmrgB p hp
    dsimp [mergeOuter]
    omega
  have t3 : List.Chain' (· ≤ ·) (mrg.map mergeOuter ++ [100]) := by
    refine chain_le_append _ _ hC (by simp) ?_
    intro x hx y hy
    simp only [List.mem_singleton] at hy
    subst hy
    exact hCub x hx
  have t3lb : ∀ y ∈ mrg.map mergeOuter ++ [100], 70 ≤ y := by
    intro y hy
    rcases List.mem_append.mp hy with h | h
    · exact hClb y h
    · simp only [List.mem_singleton] at h
      omega
  have t2 : List.Chain' (· ≤ ·) (70 :: (mrg.map mergeOuter ++ [100])) :=
    chain_le_cons 70 _ t3 t3lb
  have t2lb : ∀ y ∈ 70 :: (mrg.map mergeOuter ++ [100]), 70 ≤ y := by
    intro y hy
    rcases List.mem_cons.mp hy with h | h
    · omega
    · exact t3lb y h
  have t1 : List.Chain' (· ≤ ·)
      (sep.map sepOuter ++ 70 :: (mrg.map mergeOuter ++ [100])) :=
    chain_le_append _ _ hB t2 (fun x hx y hy => le_trans (hBub x hx) (t2lb y hy))
  have t1lb : ∀ y ∈ sep.map sepOuter ++ 70 :: (mrg.map mergeOuter ++ [100]), 30 ≤ y := by
    intro y hy
    rcases List.mem_append.mp hy with h | h
    · exact hBlb y h
    · exact le_trans (by omega) (t2lb y h)
  have t0 : List.Chain' (· ≤ ·)
      (30 :: (sep.map sepOuter ++ 70 :: (mrg.map mergeOuter ++ [100]))) :=
    chain_le_cons 30 _ t1 t1lb
  have t00 : List.Chain' (· ≤ ·)
      (20 :: 30 :: (sep.map sepOuter ++ 70 :: (mrg.map mergeOuter ++ [100]))) :=
    List.chain'_cons.mpr ⟨by omega, t0⟩
  have t00lb : ∀ y ∈ 20 :: 30 :: (sep.map sepOuter ++ 70 :: (mrg.map mergeOuter ++ [100])),
      20 ≤ y := by
    intro y hy
    rcases List.mem_cons.mp hy with h | h
    · omega
    · rcases List.mem_cons.mp h with h2 | h2
      · omega
      · exact le_trans (by omega) (t1lb y h2)
  have s1 : List.Chain' (· ≤ ·)
      (dl.map dlOuter ++ 20 :: 30 :: (sep.map sepOuter ++ 70 :: (mrg.map mergeOuter ++ [100]))) :=
    chain_le_append _ _ hA t00 (fun x hx y hy => le_trans (hAub x hx) (t00lb y hy))
  exact chain_le_cons 0 _ s1 (fun y _ => Nat.zero_le y)

/-- Witness for C8_progress_monotone on concrete inner percent
sequences (the literal callback values the download, separation and
merge stages emit). -/
theorem C8_progress_monotone_witness :
    List.Chain' (· ≤ ·) (youtubeProgressTrace [0, 50, 100] [0, 10, 20, 80, 100] [0, 100]) :=
  C8_progress_monotone [0, 50, 100] [0, 10, 20, 80, 100] [0, 100]
    (by norm_num [List.chain'_cons]) (by norm_num [List.chain'_cons])
    (by norm_num [List.chain'_cons]) (by decide) (by decide) (by decide)

/-- Helper: a header that parses as a byte range is non-empty (so it is
truthy for the `if range:` status-code check). -/
theorem parseRange_nonempty (s : String) (r : Nat × Option Nat)
    (h : parseRangeHeader s = some r) : s.data.isEmpty = false := by
  unfold parseRangeHeader at h
  rcases hd : s.data with _ | ⟨c, t⟩
  · rw [hd] at h
    exact Option.noConfusion h
  · simp [hd]

/-- Helper: the response once the Range header parses as (a, b?):
416 when a is at or past the size, otherwise the end is clamped to
size-1 (defaulted to size-1 when the second group is empty) and
Content-Length is end - start + 1 over the integers. -/
theorem rangeCore_parsed (S a : Nat) (b? : Option Nat) (truthy : Bool) :
    rangeCore S truthy (some (a, b?))
      = if S ≤ a then .notSatisfiable
        else .ranged (if truthy then 206 else 200) a (clampEnd S b?) S
          (((clampEnd S b? : Nat) : Int) - (a : Int) + 1) := by
  rcases b? with _ | b
  · simp [rangeCore, clampEnd]
  · simp [rangeCore, clampEnd]

/-- Helper: a full-file response when nothing was parsed from the header. -/
theorem rangeCore_noParse (S : Nat) (truthy : Bool) (hS : 0 < S) :
    rangeCore S truthy none
      = .ranged (if truthy then 206 else 200) 0 (S - 1) S (S : Int) := by
  unfold rangeCore
  rw [if_neg (by omega : ¬ 0 ≥ S)]
  simp only [min_self]
  congr 1
  omega

/-- Helper: streamResponse on a header that parses as (a, b?). -/
theorem streamResponse_parsed (S : Nat) (s : String) (a : Nat) (b? : Option Nat)
    (hparse : parseRangeHeader s = some (a, b?)) :
    streamResponse S (some s) = rangeCore S true (some (a, b?)) := by
  have hne := parseRange_nonempty s (a, b?) hparse
  simp [streamResponse, hne, hparse]

/-- Claim C9, counterexample: on an artifact of size 10, the request
Range: bytes=5-2 (well-formed per the code's pattern, but with b < a)
is answered 206 with Content-Range bytes 5-2/10 and Content-Length -2,
violating the claimed a <= b <= S-1 and a non-negative byte count. -/
theorem C9_counterexample :
    streamResponse 10 (some "bytes=5-2") = .ranged 206 5 2 10 (-2)
    ∧ ¬ (5 : Nat) ≤ 2 :=
  ⟨rfl, by decide⟩

/-- Claim C9, amended: for a Range header that parses as bytes=a-b with
a <= b whenever b is present (b defaulting to S-1 and clamped to S-1),
a < S yields status 206 with Content-Range bytes a-e/S and
Content-Length e-a+1 where e is the clamped end, satisfying
a <= e <= S-1; and a >= S yields 416. -/
theorem C9_range_semantics (S a : Nat) (b? : Option Nat) (s : String)
    (hparse : parseRangeHeader s = some (a, b?))
    (hab : ∀ b ∈ b?, a ≤ b) :
    (a < S →
      streamResponse S (some s)
        = .ranged 206 a (clampEnd S b?) S
            (((clampEnd S b? : Nat) : Int) - (a : Int) + 1)
      ∧ a ≤ clampEnd S b?
      ∧ clampEnd S b? ≤ S - 1)
    ∧ (S ≤ a → streamResponse S (some s) = .notSatisfiable) := by
  have h := (streamResponse_parsed S s a b? hparse).trans (rangeCore_parsed S a b? true)
  constructor
  · intro hlt
    rw [h, if_neg (by omega)]
    refine ⟨rfl, ?_, ?_⟩
    · rcases b? with _ | b
      · simp only [clampEnd, Option.getD_none, min_self]
        omega
      · have hb : a ≤ b := hab b (by simp)
        simp only [clampEnd, Option.getD_some]
        omega
    · rcases b? with _ | b
      · simp only [clampEnd, Option.getD_none, min_self]
        omega
      · simp only [clampEnd, Option.getD_some]
        omega
  · intro hge
    rw [h, if_pos (by omega)]

/-- Witness for C9_range_semantics: Range bytes=0-99 on a 4096-byte
artifact gives 206 with Content-Range bytes 0-99/4096 and
Content-Length 100. -/
theorem C9_range_semantics_witness :
    streamResponse 4096 (some "bytes=0-99") = .ranged 206 0 99 4096 100 :=
  ((C9_range_semantics 4096 0 (some 99) "bytes=0-99" rfl (by simp)).1 (by omega)).1

/-- Claim C10, counterexample: an empty Range header value is present
and fails the bytes= pattern, yet the response is 200, not the claimed
206, because the empty string is falsy in the `if range:` status test. -/
theorem C10_counterexample :
    parseRangeHeader "" = none
    ∧ streamResponse 10 (some "") = .ranged 200 0 9 10 10
    ∧ (200 : Nat) ≠ 206 :=
  ⟨rfl, rfl, by decide⟩

/-- Claim C10, amended: on a non-empty artifact, a non-empty Range
header that does not match bytes=digits-digits yields status 206
covering the whole file (start 0, end S-1, Content-Length S); an empty
Range header behaves like an absent one; and the no-Range (status 200)
response still carries a Content-Range header spanning the whole file
with Content-Length S. -/
theorem C10_malformed_range (S : Nat) (s : String) (hS : 0 < S)
    (hparse : parseRangeHeader s = none) :
    (s.data.isEmpty = false →
      streamResponse S (some s) = .ranged 206 0 (S - 1) S (S : Int))
    ∧ streamResponse S (some "") = .ranged 200 0 (S - 1) S (S : Int)
    ∧ streamResponse S none = .ranged 200 0 (S - 1) S (S : Int) := by
  refine ⟨?_, ?_, ?_⟩
  · intro hne
    have h1 : streamResponse S (some s) = rangeCore S true none := by
      simp [streamResponse, hne, hparse]
    rw [h1, rangeCore_noParse S true hS]
    rfl
  · have h0 : ("".data.isEmpty) = true := rfl
    have h1 : streamResponse S (some "") = rangeCore S false none := by
      simp [streamResponse, h0]
    rw [h1, rangeCore_noParse S false hS]
    rfl
  · have h1 : streamResponse S none = rangeCore S false none := by
      simp [streamResponse]
    rw [h1, rangeCore_noParse S false hS]
    rfl

/-- Witness for C10_malformed_range at size 10 with the malformed
header value xyz. -/
theorem C10_malformed_range_witness :
    streamResponse 10 (some "xyz") = .ranged 206 0 9 10 10
    ∧ streamResponse 10 (some "") = .ranged 200 0 9 10 10
    ∧ streamResponse 10 none = .ranged 200 0 9 10 10 :=
  ⟨(C10_malformed_range 10 "xyz" (by omega) rfl).1 rfl,
   (C10_malformed_range 10 "xyz" (by omega) rfl).2.1,
   (C10_malformed_range 10 "xyz" (by omega) rfl).2.2⟩

/-- Claim C4: the remix cache key is a pure function of the job id, the
gains rounded to two decimals, the pitch shift and the container - two
settings give the same mix_id exactly when all rounded components agree
and differ otherwise - and when the keyed output file already exists on
disk, POST /jobs/id/mix returns immediately with status completed,
progress 100 and cached=true without spawning a worker thread. -/
theorem C4_mix_cache_key (jobId : String) (s1 s2 : MixSettings) (job : Job)
    (s : MixSettings) (fs : MixKey → Bool) (infl : MixKey → Option Nat)
    (hc : job.status = .completed) (ht : job.trackPaths ≠ none)
    (hfs : fs (getCacheKey job.id s) = true) :
    (getCacheKey jobId s1 = getCacheKey jobId s2
      ↔ roundGain s1.drumsVolume = roundGain s2.drumsVolume
        ∧ roundGain s1.bassVolume = roundGain s2.bassVolume
        ∧ roundGain s1.otherVolume = roundGain s2.otherVolume
        ∧ roundGain s1.vocalsVolume = roundGain s2.vocalsVolume
        ∧ s1.pitchShift = s2.pitchShift
        ∧ s1.outputFormat = s2.outputFormat)
    ∧ createMix (some job) s fs infl
        = .resp { mixId := getCacheKey job.id s, status := "completed",
                  progress := 100, cached := true, workerSpawned := false } := by
  constructor
  · simp [getCacheKey, MixKey.mk.injEq]
  · simp [createMix, hc, ht, hfs]

/-- Witness for C4_mix_cache_key: the default settings on the completed
sample job with its keyed output already on disk. -/
theorem C4_mix_cache_key_witness :
    (getCacheKey "job-3" defaultMixSettings = getCacheKey "job-3" defaultMixSettings
      ↔ roundGain defaultMixSettings.drumsVolume = roundGain defaultMixSettings.drumsVolume
        ∧ roundGain defaultMixSettings.bassVolume = roundGain defaultMixSettings.bassVolume
        ∧ roundGain defaultMixSettings.otherVolume = roundGain defaultMixSettings.otherVolume
        ∧ roundGain defaultMixSettings.vocalsVolume = roundGain defaultMixSettings.vocalsVolume
        ∧ defaultMixSettings.pitchShift = defaultMixSettings.pitchShift
        ∧ defaultMixSettings.outputFormat = defaultMixSettings.outputFormat)
    ∧ createMix (some mixSampleJob) defaultMixSettings (fun _ => true) (fun _ => none)
        = .resp { mixId := getCacheKey mixSampleJob.id defaultMixSettings,
                  status := "completed", progress := 100, cached := true,
                  workerSpawned := false } :=
  C4_mix_cache_key "job-3" defaultMixSettings defaultMixSettings mixSampleJob
    defaultMixSettings (fun _ => true) (fun _ => none) rfl (by decide) rfl

/-- Helper: filtering out a key makes its lookup fail. -/
theorem alookup_filter_ne {α : Type} (l : List (String × α)) (k : String) :
    alookup (l.filter (fun e => decide (e.1 ≠ k))) k = none := by
  induction l with
  | nil => rfl
  | cons e tl ih =>
    obtain ⟨a, b⟩ := e
    rw [List.filter_cons]
    by_cases ha : a = k
    · rw [if_neg (by simp [ha])]
      exact ih
    · rw [if_pos (by simp [ha]), alookup_cons, if_neg ha]
      exact ih

/-- Claim C7, counterexample: in a state where the colliding job old
has a directory on disk and its conflict is pending, resolving with
overwrite leaves the old directory on disk (only the registry entry is
removed): Importer.resolve_conflict calls JobManager.delete_job, which
touches the registry alone, never the store. -/
theorem C7_counterexample :
    samplePending.existingJobId = "old"
    ∧ alookup importSampleState.pendings "c1" = some samplePending
    ∧ "old" ∈ importSampleState.diskDirs
    ∧ "old" ∈ (resolveOverwrite importSampleState "c1" "new").1.diskDirs
    ∧ alookup (resolveOverwrite importSampleState "c1" "new").1.registry "old" = none := by
  refine ⟨rfl, rfl, ?_, ?_, rfl⟩
  · decide
  · have h : (resolveOverwrite importSampleState "c1" "new").1.diskDirs = ["new", "old"] := rfl
    rw [h]
    decide

/-- Claim C7, amended: resolving a pending conflict with overwrite
succeeds, removes the colliding prior job from the registry while its
on-disk directory is left in place, materializes the pending bytes as a
new COMPLETED job with progress 100 under the original title in a fresh
job directory, and removes the pending conflict entry. -/
theorem C7_overwrite_behaviour (st : ImportState) (cid nid : String) (p : PendingImport)
    (hp : alookup st.pendings cid = some p)
    (hne : nid ≠ p.existingJobId) :
    (resolveOverwrite st cid nid).2.2 = none
    ∧ (resolveOverwrite st cid nid).2.1 = some (jobFromFilesData nid p none)
    ∧ (jobFromFilesData nid p none).status = .completed
    ∧ (jobFromFilesData nid p none).progress = 100
    ∧ (jobFromFilesData nid p none).sourceTitle = some p.title
    ∧ alookup (resolveOverwrite st cid nid).1.registry nid
        = some (jobFromFilesData nid p none)
    ∧ alookup (resolveOverwrite st cid nid).1.registry p.existingJobId = none
    ∧ (p.existingJobId ∈ st.diskDirs →
        p.existingJobId ∈ (resolveOverwrite st cid nid).1.diskDirs)
    ∧ alookup (resolveOverwrite st cid nid).1.pendings cid = none := by
  have hres : resolveOverwrite st cid nid
      = ({ registry := (nid, jobFromFilesData nid p none)
              :: st.registry.filter (fun e => decide (e.1 ≠ p.existingJobId))
           pendings := st.pendings.filter (fun e => decide (e.1 ≠ cid))
           diskDirs := nid :: st.diskDirs },
         some (jobFromFilesData nid p none), none) := by
    unfold resolveOverwrite
    rw [hp]
  rw [hres]
  refine ⟨rfl, rfl, rfl, rfl, rfl, ?_, ?_, ?_, ?_⟩
  · rw [alookup_cons, if_pos rfl]
  · rw [alookup_cons, if_neg hne]
    exact alookup_filter_ne _ _
  · intro h
    exact List.mem_cons_of_mem _ h
  · exact alookup_filter_ne _ _

/-- Witness for C7_overwrite_behaviour on the sample import state. -/
theorem C7_overwrite_behaviour_witness :
    (resolveOverwrite importSampleState "c1" "new").2.2 = none
    ∧ (resolveOverwrite importSampleState "c1" "new").2.1
        = some (jobFromFilesData "new" samplePending none)
    ∧ (jobFromFilesData "new" samplePending none).status = .completed
    ∧ (jobFromFilesData "new" samplePending none).progress = 100
    ∧ (jobFromFilesData "new" samplePending none).sourceTitle = some samplePending.title
    ∧ alookup (resolveOverwrite importSampleState "c1" "new").1.registry "new"
        = some (jobFromFilesData "new" samplePending none)
    ∧ alookup (resolveOverwrite importSampleState "c1" "new").1.registry
        samplePending.existingJobId = none
    ∧ (samplePending.existingJobId ∈ importSampleState.diskDirs →
        samplePending.existingJobId ∈ (resolveOverwrite importSampleState "c1" "new").1.diskDirs)
    ∧ alookup (resolveOverwrite importSampleState "c1" "new").1.pendings "c1" = none :=
  C7_overwrite_behaviour importSampleState "c1" "new" samplePending rfl (by decide)

end VocalRemover
